import Mathlib

/-!
# Verification of the mandiplus-bot-backend request lifecycle

Shallow embedding of the insurance-request backend:
- `createInsuranceRequest`, `getRequestByUserId` from `server.js`
  (insuranceController part),
- `approveRequest`, `rejectRequest` from `src/controllers/adminController.js`,
- the consent / rejection validators from the validation middleware,
- the invoice PDF renderer (`generateInvoicePdf`) from the invoice service.

The persistent store (Prisma) is modelled as a list of records; each HTTP
handler becomes a pure function from the store and the request input to a
response together with the new store.  Decimal / JS number arithmetic is
modelled over `ℚ`.  External effects (PDF stream completion, image download,
filesystem probes, outbound Chatrace notification) are passed in as explicit
outcome parameters, so that every control-flow path of the source is a value
of the model.
-/

namespace MandiPlus

/-- Storage ceiling for the premium column, `Decimal(10,2)` max, from both
`server.js` and `adminController.js`: `const MAX_PREMIUM = 99999999.99`. -/
def MAX_PREMIUM : ℚ := (9999999999 : ℚ) / 100

/-- Digits-only normalization of a submitter identifier:
`String(userId).replace(/[^0-9]/g, '')` keeps exactly the characters 0-9. -/
def digitsOnly (s : String) : String :=
  String.mk (s.data.filter Char.isDigit)

/-- JS `String.prototype.toLowerCase` (over the character list). -/
def jsToLower (s : String) : String :=
  String.mk (s.data.map Char.toLower)

/-- JS `String.prototype.trim`: strip leading and trailing whitespace. -/
def jsTrim (s : String) : String :=
  String.mk (((s.data.dropWhile Char.isWhitespace).reverse.dropWhile
    Char.isWhitespace).reverse)

/-- JS `String.prototype.startsWith` (over the character list). -/
def jsStartsWith (s pre : String) : Bool :=
  List.isPrefixOf pre.data s.data

/-- The raw `consent` field of an inbound JSON body: a boolean, a string, or
absent (`undefined` after destructuring). -/
inductive ConsentInput
  | bool (b : Bool)
  | str (s : String)
  | omitted
deriving DecidableEq, Repr

/-- `normalizeBoolean` from `server.js`: booleans pass through, anything else
is stringified (JS renders `undefined` as the string "undefined"), lowercased,
trimmed, and compared against "true" / "yes" / "1". -/
def normalizeBoolean : ConsentInput → Bool
  | .bool b => b
  | .str s =>
      let n := jsTrim (jsToLower s)
      n == "true" || n == "yes" || n == "1"
  | .omitted =>
      let n := jsTrim (jsToLower "undefined")
      n == "true" || n == "yes" || n == "1"

/-- The `body('consent')` chain of the validation middleware:
`notEmpty` (fails for absent or empty input) then a custom check that the
lowercased, trimmed string is one of true/false/yes/no/1/0 (booleans pass). -/
def consentValidatorOk : ConsentInput → Bool
  | .bool _ => true
  | .str s => s ≠ "" && ["true", "false", "yes", "no", "1", "0"].contains (jsTrim (jsToLower s))
  | .omitted => false

/-- The `body('rejectionReason')` chain of the validation middleware:
`notEmpty`, `isLength min 10`, `isLength max 500`.  NOTE: the reject route
attaches this chain, but `rejectRequest` never consults `validationResult`,
so in the running system these errors are computed and then ignored. -/
def validateRejectionOk : Option String → Bool
  | none => false
  | some r => r ≠ "" && 10 ≤ r.length && r.length ≤ 500

/-- A stored `InsuranceRequest` row.  `status`, `adminAction` and
`paymentStatus` are kept as strings, exactly as the controllers compare and
write them. -/
structure InsuranceRequest where
  id : String
  userId : String
  timestamp : Int := 0
  supplierName : Option String := none
  supplierPlace : Option String := none
  partyName : Option String := none
  partyAddress : Option String := none
  itemName : String := ""
  quantity : Int := 1
  rate : Option ℚ := none
  vehicleNo : String := ""
  transporterName : Option String := none
  cashCommission : Option String := none
  invoiceType : Option String := none
  kantaParchiImage : Option String := none
  consent : Bool := true
  status : String := "PENDING_VERIFICATION"
  premiumAmount : Option ℚ := none
  invoiceNumber : Option String := none
  paymentLink : Option String := none
  paymentStatus : Option String := none
  adminAction : Option String := none
  adminTimestamp : Option Nat := none
  rejectionReason : Option String := none
  policyNumber : Option String := none
  policyPdfUrl : Option String := none
  invoicePdfUrl : Option String := none
deriving DecidableEq, Repr

/-- The store: the `insuranceRequest` table as a list of rows. -/
abbrev Db := List InsuranceRequest

/-- `prisma.insuranceRequest.findUnique({ where: { id } })`. -/
def findUniqueById (db : Db) (id : String) : Option InsuranceRequest :=
  List.find? (fun r => r.id == id) db

/-- `prisma.insuranceRequest.findUnique({ where: { userId } })`. -/
def findUniqueByUserId (db : Db) (userId : String) : Option InsuranceRequest :=
  List.find? (fun r => r.userId == userId) db

/-- `prisma.insuranceRequest.update({ where: { id }, data })`: apply the data
patch `f` to the row(s) matching the primary key. -/
def updateById (db : Db) (id : String) (f : InsuranceRequest → InsuranceRequest) : Db :=
  db.map (fun r => if r.id == id then f r else r)

/-- JS `x || null` on an optional string field: empty strings fall back to
null, as in `supplierName: supplierName || null`. -/
def orNull : Option String → Option String
  | none => none
  | some s => if s = "" then none else some s

/-- Inbound body of `POST /api/insurance/request`, after JSON parsing.
`quantity` models the `parseInt(quantity)` result and `rate` the
`parseFloat(rate)` result (validated upstream to be numeric). -/
structure CreateBody where
  userId : Option String := none
  timestamp : Int := 0
  supplierName : Option String := none
  supplierPlace : Option String := none
  partyName : Option String := none
  partyAddress : Option String := none
  itemName : String := ""
  quantity : Int := 1
  rate : Option ℚ := none
  vehicleNo : String := ""
  transporterName : Option String := none
  cashCommission : Option String := none
  invoiceType : Option String := none
  kantaParchiImage : Option String := none
  consent : ConsentInput := .omitted
deriving Repr

/-- The row persisted by the `prisma.insuranceRequest.create` call of
`createInsuranceRequest`: the base premium is 0.2% of quantity × rate
(rate from `rate ? parseFloat(rate) : 0`), capped at `MAX_PREMIUM`; the
stored rate follows `rate: rateNum || null`. -/
def createdRow (body : CreateBody) (newId cleanUserId : String)
    (consentValue : Bool) : InsuranceRequest :=
  let qty := body.quantity
  let rateNum : ℚ := body.rate.getD 0
  let totalValue : ℚ := (qty : ℚ) * rateNum
  let rawPremium : ℚ := totalValue * (2 / 1000)
  let basePremiumAmount : ℚ :=
    if rawPremium > MAX_PREMIUM then MAX_PREMIUM else rawPremium
  { id := newId
    userId := cleanUserId
    timestamp := body.timestamp
    supplierName := orNull body.supplierName
    supplierPlace := orNull body.supplierPlace
    partyName := orNull body.partyName
    partyAddress := orNull body.partyAddress
    itemName := body.itemName
    quantity := qty
    rate := if rateNum = 0 then none else some rateNum
    vehicleNo := body.vehicleNo
    transporterName := orNull body.transporterName
    cashCommission := orNull body.cashCommission
    invoiceType := orNull body.invoiceType
    kantaParchiImage := orNull body.kantaParchiImage
    consent := consentValue
    status := "PENDING_VERIFICATION"
    premiumAmount := some basePremiumAmount }

/-- Response of `createInsuranceRequest`, one constructor per return site. -/
inductive CreateResp
  | validationError
  | missingUserId
  | invalidUserId
  | consentRequired
  | duplicate (requestId : String) (status : String)
  | created (requestId : String) (userId : String) (vehicleNo : String)
      (itemName : String) (quantity : Int) (status : String)
deriving DecidableEq, Repr

/-- HTTP status code of each `createInsuranceRequest` return site. -/
def CreateResp.httpStatus : CreateResp → Nat
  | .validationError => 400
  | .missingUserId => 400
  | .invalidUserId => 400
  | .consentRequired => 400
  | .duplicate _ _ => 409
  | .created _ _ _ _ _ _ => 201

/-- `createInsuranceRequest` from `server.js`.  `newId` models the UUID that
Prisma generates for the new row; `otherValidatorsOk` models the outcome of
the validator chains other than consent (`userId` / `timestamp` / `itemName` /
`quantity` / `rate` / `vehicleNo`), since the handler checks
`validationResult(req)` first.  The rate default follows
`rate ? parseFloat(rate) : 0` and the stored rate follows
`rate: rateNum || null`. -/
def createInsuranceRequest (db : Db) (body : CreateBody) (newId : String)
    (otherValidatorsOk : Bool) : CreateResp × Db :=
  if ¬ (otherValidatorsOk && consentValidatorOk body.consent) then
    (.validationError, db)
  else
    match body.userId with
    | none => (.missingUserId, db)
    | some uid =>
      if uid = "" then (.missingUserId, db)
      else
        let cleanUserId := digitsOnly uid
        if cleanUserId = "" then (.invalidUserId, db)
        else
          let consentValue := normalizeBoolean body.consent
          if ¬ consentValue then (.consentRequired, db)
          else
            match findUniqueByUserId db cleanUserId with
            | some existingRequest =>
                (.duplicate existingRequest.id existingRequest.status, db)
            | none =>
              (.created newId cleanUserId body.vehicleNo body.itemName body.quantity
                "PENDING_VERIFICATION", db ++ [createdRow body newId cleanUserId consentValue])

/-- The field projection of `GET /api/insurance/status/:userId`
(`select:` clause of `getRequestByUserId`). -/
structure StatusView where
  id : String
  userId : String
  vehicleNo : String
  itemName : String
  quantity : Int
  rate : Option ℚ
  supplierName : Option String
  partyName : Option String
  status : String
  invoiceNumber : Option String
  premiumAmount : Option ℚ
  paymentStatus : Option String
  paymentLink : Option String
  policyNumber : Option String
  policyPdfUrl : Option String
  rejectionReason : Option String
deriving DecidableEq, Repr

/-- Build the status projection from a stored row. -/
def selectStatusView (r : InsuranceRequest) : StatusView :=
  { id := r.id
    userId := r.userId
    vehicleNo := r.vehicleNo
    itemName := r.itemName
    quantity := r.quantity
    rate := r.rate
    supplierName := r.supplierName
    partyName := r.partyName
    status := r.status
    invoiceNumber := r.invoiceNumber
    premiumAmount := r.premiumAmount
    paymentStatus := r.paymentStatus
    paymentLink := r.paymentLink
    policyNumber := r.policyNumber
    policyPdfUrl := r.policyPdfUrl
    rejectionReason := r.rejectionReason }

/-- Response of `getRequestByUserId`. -/
inductive LookupResp
  | notFound (searchedUserId : String)
  | ok (data : StatusView)
deriving DecidableEq, Repr

/-- `getRequestByUserId` from `server.js`: normalize the path parameter to
digits only, then `findUnique` on the normalized identifier. -/
def getRequestByUserId (db : Db) (userId : String) : LookupResp :=
  let cleanUserId := digitsOnly userId
  match findUniqueByUserId db cleanUserId with
  | none => .notFound cleanUserId
  | some r => .ok (selectStatusView r)

/-- Response of `approveRequest`, one constructor per return site.  The `ok`
payload mirrors the `data:` object built from `updatedRequest`. -/
inductive ApproveResp
  | notFound
  | alreadyProcessed (status : String)
  | ok (requestId : String) (invoiceNumber : Option String)
      (premiumAmount : Option ℚ) (paymentLink : Option String)
      (invoicePdfUrl : Option String) (status : String)
  | serverError
deriving DecidableEq, Repr

/-- HTTP status code of each `approveRequest` return site. -/
def ApproveResp.httpStatus : ApproveResp → Nat
  | .notFound => 404
  | .alreadyProcessed _ => 400
  | .ok _ _ _ _ _ _ => 200
  | .serverError => 500

/-- The `data` patch of the approval `prisma.insuranceRequest.update`. -/
def applyApprovalData (now : Nat) (invoiceNumber : String) (premiumAmount : ℚ)
    (paymentLink : String) (r : InsuranceRequest) : InsuranceRequest :=
  { r with
    status := "APPROVED"
    adminAction := some "APPROVED"
    adminTimestamp := some now
    invoiceNumber := some invoiceNumber
    premiumAmount := some premiumAmount
    paymentLink := some paymentLink
    paymentStatus := some "PENDING" }

/-- `approveRequest` from `adminController.js`.  `now` models `Date.now()`,
`serverUrl` the `APP_URL` / localhost base, `pdfResult` the outcome of
`generateInvoicePdf` (`some filename` on success, `none` when it throws —
the catch only warns), and `notifyOk` the outcome of `sendChatraceMessage`
(its failure is also caught and only warned, so it cannot change the result:
the function is quantified over it). -/
def approveRequest (db : Db) (id : String) (now : Nat) (serverUrl : String)
    (pdfResult : Option String) (notifyOk : Bool) : ApproveResp × Db :=
  match findUniqueById db id with
  | none => (.notFound, db)
  | some request =>
    if request.status ≠ "PENDING_VERIFICATION" then
      (.alreadyProcessed request.status, db)
    else
      let totalValue : ℚ := (request.quantity : ℚ) * (request.rate.getD 0)
      let rawPremium : ℚ :=
        match request.premiumAmount with
        | some p => p
        | none => totalValue * (2 / 1000)
      let premiumAmount : ℚ :=
        if rawPremium > MAX_PREMIUM then MAX_PREMIUM else rawPremium
      let invoiceNumber := "INV" ++ toString now
      let paymentLink := "https://razorpay.me/temp-link-" ++ invoiceNumber
      let updated1 := applyApprovalData now invoiceNumber premiumAmount paymentLink request
      let db1 := updateById db id (applyApprovalData now invoiceNumber premiumAmount paymentLink)
      match pdfResult with
      | some pdfFilename =>
          let invoicePdfUrl := serverUrl ++ "/invoices/" ++ pdfFilename
          let updated2 := { updated1 with invoicePdfUrl := some invoicePdfUrl }
          let db2 := updateById db1 id (fun r => { r with invoicePdfUrl := some invoicePdfUrl })
          -- notification failure is caught and only logged
          (.ok updated2.id updated2.invoiceNumber updated2.premiumAmount
            updated2.paymentLink updated2.invoicePdfUrl updated2.status, db2)
      | none =>
          -- PDF failure is caught and only logged; approval stands
          (.ok updated1.id updated1.invoiceNumber updated1.premiumAmount
            updated1.paymentLink updated1.invoicePdfUrl updated1.status, db1)

/-- Response of `rejectRequest`, one constructor per return site. -/
inductive RejectResp
  | reasonRequired
  | notFound
  | alreadyProcessed (status : String)
  | ok (requestId : String) (status : String) (rejectionReason : Option String)
  | serverError
deriving DecidableEq, Repr

/-- HTTP status code of each `rejectRequest` return site. -/
def RejectResp.httpStatus : RejectResp → Nat
  | .reasonRequired => 400
  | .notFound => 404
  | .alreadyProcessed _ => 400
  | .ok _ _ _ => 200
  | .serverError => 500

/-- `rejectRequest` from `adminController.js`.  The route attaches the
`validateRejection` middleware, but the handler never calls
`validationResult(req)`, so only its own falsy check on `rejectionReason`
gates the call; `some ""` is falsy in JS and is treated like absence.
Unlike the approve path, `await sendChatraceMessage(...)` is NOT wrapped in
its own try/catch here: when the notifier throws (`notifyOk = false`), the
outer catch returns the 500 response — after the REJECTED update has already
been committed to the store. -/
def rejectRequest (db : Db) (id : String) (rejectionReason : Option String)
    (now : Nat) (notifyOk : Bool) : RejectResp × Db :=
  match rejectionReason with
  | none => (.reasonRequired, db)
  | some reason =>
    if reason = "" then (.reasonRequired, db)
    else
      match findUniqueById db id with
      | none => (.notFound, db)
      | some request =>
        if request.status ≠ "PENDING_VERIFICATION" then
          (.alreadyProcessed request.status, db)
        else
          let updated :=
            { request with
              status := "REJECTED"
              adminAction := some "REJECTED"
              adminTimestamp := some now
              rejectionReason := some reason }
          let db1 := updateById db id (fun r =>
            { r with
              status := "REJECTED"
              adminAction := some "REJECTED"
              adminTimestamp := some now
              rejectionReason := some reason })
          if notifyOk then
            (.ok updated.id updated.status updated.rejectionReason, db1)
          else
            (.serverError, db1)

/-- Branding defaults of the invoice service (env fallbacks). -/
def COMPANY_NAME : String := "ENP FARMS PVT LTD"

/-- Default HSN code printed in the line-item row. -/
def DEFAULT_HSN : String := "08011910"

/-- `downloadImageFromUrl` from the invoice service: returns null unless the
URL is truthy and starts with "http"; otherwise the download is attempted,
yielding a temp file path or null on any axios/stream error.  `net` models
that network outcome. -/
def downloadImageFromUrl (imageUrl : Option String) (net : Option String) : Option String :=
  match imageUrl with
  | none => none
  | some u => if u = "" then none else if ¬ jsStartsWith u "http" then none else net

/-- The guarded download at the top of `generateInvoicePdf`:
`if (request.kantaParchiImage) { downloadedImagePath = await downloadImageFromUrl(...) }`. -/
def downloadedPath (request : InsuranceRequest) (net : Option String) : Option String :=
  match request.kantaParchiImage with
  | none => none
  | some u => if u = "" then none else downloadImageFromUrl (some u) net

/-- The local fallback path candidates tried when no downloaded image was
embedded, in source order (`path.join` bases elided to relative paths). -/
def possibleImagePaths (request : InsuranceRequest) : List String :=
  [ "uploads/" ++ (request.kantaParchiImage.getD "")
  , "uploads/kantaparchi/" ++ request.id ++ ".jpg"
  , "uploads/kantaparchi/" ++ request.id ++ ".png"
  , "uploads/kantaparchi/" ++ request.userId ++ ".jpg"
  , "uploads/kantaparchi/" ++ request.userId ++ ".png" ]

/-- Filesystem / image-decoder environment of a render: which paths exist
(`fs.existsSync`) and on which paths `doc.image` succeeds. -/
structure RenderEnv where
  fsExists : String → Bool
  imageOk : String → Bool

/-- What ends up in the weightment-slip box of the document. -/
inductive SlipContent
  | image (path : String)
  | placeholder (text : String)
deriving DecidableEq, Repr

/-- The local-path fallback loop: the first candidate that exists and whose
`doc.image` call does not throw is embedded (a throwing candidate is warned
and the loop continues); when no candidate qualifies the loop leaves
`imageAdded` false. -/
def localFallbackSlip (request : InsuranceRequest) (env : RenderEnv) : Option String :=
  List.find? (fun p => env.fsExists p && env.imageOk p) (possibleImagePaths request)

/-- The full weightment-slip logic of `generateInvoicePdf`: first the
downloaded image (when present, still on disk, and decodable), then the local
candidates, and finally the textual placeholder. -/
def weightmentSlip (request : InsuranceRequest) (downloadedImagePath : Option String)
    (env : RenderEnv) : SlipContent :=
  match downloadedImagePath with
  | some p =>
      if env.fsExists p && env.imageOk p then .image p
      else
        match localFallbackSlip request env with
        | some q => .image q
        | none => .placeholder "CUSTOMER WILL UPDATE TOMORROW"
  | none =>
      match localFallbackSlip request env with
      | some q => .image q
      | none => .placeholder "CUSTOMER WILL UPDATE TOMORROW"

/-- The semantic content drawn into the invoice document (layout coordinates
and fonts elided; string fallbacks follow the `x || '-'` defaults at the top
of `generateInvoicePdf`). -/
structure InvoiceDoc where
  header : String
  companyName : String
  invoiceNumber : String
  terms : String
  supplierName : String
  supplierPlace : String
  partyName : String
  partyAddress : String
  itemName : String
  hsn : String
  quantity : Int
  rate : ℚ
  totalAmount : ℚ
  premium : ℚ
  vehicleNo : String
  transporterName : String
  slip : SlipContent
deriving DecidableEq, Repr

/-- JS `x || '-'` on a required string field. -/
def orDash (s : String) : String := if s = "" then "-" else s

/-- JS `x || '-'` on an optional string field. -/
def orDashOpt : Option String → String
  | none => "-"
  | some s => orDash s

/-- The document body drawn by `generateInvoicePdf` (between `doc.pipe` and
`doc.end`), as content rather than coordinates. -/
def buildInvoiceDoc (request : InsuranceRequest) (invoiceNumber : String)
    (premiumAmount : ℚ) (downloadedImagePath : Option String) (env : RenderEnv) : InvoiceDoc :=
  let quantity := request.quantity
  let rate : ℚ := request.rate.getD 0
  { header := "MandiPlus"
    companyName := COMPANY_NAME
    invoiceNumber := invoiceNumber
    terms := "CUSTOM"
    supplierName := orDashOpt request.supplierName
    supplierPlace := orDashOpt request.supplierPlace
    partyName := orDashOpt request.partyName
    partyAddress := orDashOpt request.partyAddress
    itemName := orDash request.itemName
    hsn := DEFAULT_HSN
    quantity := quantity
    rate := rate
    totalAmount := (quantity : ℚ) * rate
    premium := premiumAmount
    vehicleNo := orDash request.vehicleNo
    transporterName := orDashOpt request.transporterName
    slip := weightmentSlip request downloadedImagePath env }

/-- How a render run terminates: the write stream finishes, the write stream
errors, the PDF document emits an error, or the drawing code throws
synchronously. -/
inductive RenderOutcome
  | finish
  | streamError
  | docError
  | drawThrow
deriving DecidableEq, Repr

/-- Observable side effects of a render run. -/
inductive RenderAction
  | cleanupTemp (path : String)
deriving DecidableEq, Repr

/-- `generateInvoicePdf` from the invoice service: resolves the filename
`<invoiceNumber>.pdf` (with the drawn document) when the stream finishes, and
rejects on a stream error, a document error, or a synchronous throw.  Every
terminal handler calls `cleanupTempImage(downloadedImagePath)` when a
temporary download exists; the returned action list records those calls. -/
def generateInvoicePdf (request : InsuranceRequest) (invoiceNumber : String)
    (premiumAmount : ℚ) (net : Option String) (env : RenderEnv)
    (outcome : RenderOutcome) : Except Unit (String × InvoiceDoc) × List RenderAction :=
  let filename := invoiceNumber ++ ".pdf"
  let dl := downloadedPath request net
  match outcome with
  | .finish =>
      (.ok (filename, buildInvoiceDoc request invoiceNumber premiumAmount dl env),
        match dl with | some p => [.cleanupTemp p] | none => [])
  | .streamError =>
      (.error (), match dl with | some p => [.cleanupTemp p] | none => [])
  | .docError =>
      (.error (), match dl with | some p => [.cleanupTemp p] | none => [])
  | .drawThrow =>
      (.error (), match dl with | some p => [.cleanupTemp p] | none => [])

/-! ## Helper lemmas -/

/-- The upper clamp written as `if x > cap then cap else x` is the minimum. -/
lemma clamp_eq_min (x cap : ℚ) : (if x > cap then cap else x) = min x cap := by
  rcases le_or_lt x cap with h | h
  · rw [if_neg (not_lt.mpr h), min_eq_left h]
  · rw [if_pos h, min_eq_right h.le]

/-- Searching an appended list when the first part has no hit. -/
lemma find?_append_of_none {α : Type} (p : α → Bool) {l₁ : List α} (l₂ : List α)
    (h : l₁.find? p = none) : (l₁ ++ l₂).find? p = l₂.find? p := by
  induction l₁ with
  | nil => rfl
  | cons a l ih =>
      have ha : ¬ p a = true := by
        intro hpa
        rw [List.find?_cons_of_pos _ hpa] at h
        exact Option.noConfusion h
      have hl : l.find? p = none := by
        rwa [List.find?_cons_of_neg _ ha] at h
      rw [List.cons_append, List.find?_cons_of_neg _ ha, ih hl]

/-- A `findUnique` hit survives an `updateById` with an id-preserving patch,
and receives the patch. -/
lemma findUniqueById_updateById (db : Db) (id : String)
    (f : InsuranceRequest → InsuranceRequest) (hf : ∀ r, (f r).id = r.id)
    {r : InsuranceRequest} (h : findUniqueById db id = some r) :
    findUniqueById (updateById db id f) id = some (f r) := by
  unfold findUniqueById at h ⊢
  unfold updateById
  induction db with
  | nil => exact Option.noConfusion h
  | cons a l ih =>
      by_cases ha : (a.id == id) = true
      · rw [@List.find?_cons_of_pos _ (fun r => r.id == id) a l ha] at h
        injection h with h
        subst h
        rw [List.map_cons, if_pos ha]
        exact @List.find?_cons_of_pos _ (fun r => r.id == id) (f a) _
          (by show ((f a).id == id) = true; rw [hf a]; exact ha)
      · rw [@List.find?_cons_of_neg _ (fun r => r.id == id) a l ha] at h
        rw [List.map_cons, if_neg ha,
          @List.find?_cons_of_neg _ (fun r => r.id == id) a _ ha]
        exact ih h

/-! ## C1: terminal states are immutable -/

/-- C1: a stored request whose status is not PENDING_VERIFICATION (i.e.
already APPROVED or REJECTED) makes both `approveRequest` and `rejectRequest`
fail with the already-processed conflict response (HTTP 400, the
state-transition-conflict case of the error taxonomy) and leave the store
untouched: terminal states are never exited. -/
theorem terminal_state_conflict (db : Db) (id : String) (now : Nat)
    (serverUrl : String) (pdfResult : Option String) (notifyOk : Bool)
    (reason : String) (r : InsuranceRequest)
    (hfind : findUniqueById db id = some r)
    (hstatus : r.status ≠ "PENDING_VERIFICATION")
    (hreason : reason ≠ "") :
    approveRequest db id now serverUrl pdfResult notifyOk =
      (.alreadyProcessed r.status, db) ∧
    (ApproveResp.alreadyProcessed r.status).httpStatus = 400 ∧
    rejectRequest db id (some reason) now notifyOk =
      (.alreadyProcessed r.status, db) ∧
    (RejectResp.alreadyProcessed r.status).httpStatus = 400 := by
  refine ⟨?_, rfl, ?_, rfl⟩
  · unfold approveRequest
    rw [hfind]
    simp [hstatus]
  · unfold rejectRequest
    rw [hfind]
    simp [hreason, hstatus]

/-- A concrete already-approved row. -/
def approvedRow : InsuranceRequest :=
  { id := "req-appr", userId := "919876543210", itemName := "Copra",
    quantity := 20, status := "APPROVED",
    invoiceNumber := some "INV1700000000000", paymentStatus := some "PENDING" }

/-- Witness for C1 at a concrete already-approved request. -/
theorem terminal_state_conflict_witness :
    findUniqueById [approvedRow] "req-appr" = some approvedRow ∧
    approveRequest [approvedRow] "req-appr" 7 "http://localhost:5000" none true =
      (.alreadyProcessed "APPROVED", [approvedRow]) ∧
    rejectRequest [approvedRow] "req-appr" (some "incomplete documentation") 7 true =
      (.alreadyProcessed "APPROVED", [approvedRow]) := by
  have h := terminal_state_conflict [approvedRow] "req-appr" 7 "http://localhost:5000"
    none true "incomplete documentation" approvedRow (by decide) (by decide) (by decide)
  exact ⟨by decide, h.1, h.2.2.1⟩

/-- Characterization of the success path of `createInsuranceRequest`: when
the validators pass, the identifier is present with at least one digit, the
consent normalizes to true and no row with the normalized identifier exists,
the handler answers 201 and appends exactly the created row. -/
lemma createInsuranceRequest_success (db : Db) (body : CreateBody)
    (newId uid : String)
    (hval : consentValidatorOk body.consent = true)
    (huid : body.userId = some uid) (hne : uid ≠ "")
    (hdig : digitsOnly uid ≠ "")
    (hcons : normalizeBoolean body.consent = true)
    (hnodup : findUniqueByUserId db (digitsOnly uid) = none) :
    createInsuranceRequest db body newId true =
      (.created newId (digitsOnly uid) body.vehicleNo body.itemName body.quantity
        "PENDING_VERIFICATION",
       db ++ [createdRow body newId (digitsOnly uid) true]) := by
  simp [createInsuranceRequest, huid, hval, hcons, hne, hdig, hnodup]

/-! ## C2: premium stored at creation -/

/-- C2: for a valid submission (integer quantity ≥ 1, rate ≥ 0 or absent and
then defaulted to 0) that is actually persisted, the stored premium equals
min(quantity × rate × 0.002, 99999999.99) and is never negative. -/
theorem premium_at_creation (db : Db) (body : CreateBody) (newId uid : String)
    (hval : consentValidatorOk body.consent = true)
    (huid : body.userId = some uid) (hne : uid ≠ "")
    (hdig : digitsOnly uid ≠ "")
    (hcons : normalizeBoolean body.consent = true)
    (hnodup : findUniqueByUserId db (digitsOnly uid) = none)
    (hq : 1 ≤ body.quantity)
    (hr : ∀ x ∈ body.rate, 0 ≤ x) :
    ∃ row : InsuranceRequest,
      (createInsuranceRequest db body newId true).2 = db ++ [row] ∧
      row.premiumAmount =
        some (min ((body.quantity : ℚ) * body.rate.getD 0 * (2 / 1000)) MAX_PREMIUM) ∧
      ∀ p ∈ row.premiumAmount, 0 ≤ p := by
  refine ⟨createdRow body newId (digitsOnly uid) true, ?_, ?_, ?_⟩
  · rw [createInsuranceRequest_success db body newId uid hval huid hne hdig hcons hnodup]
  · show some (if (body.quantity : ℚ) * body.rate.getD 0 * (2 / 1000) > MAX_PREMIUM
        then MAX_PREMIUM
        else (body.quantity : ℚ) * body.rate.getD 0 * (2 / 1000)) = _
    rw [clamp_eq_min]
  · intro p hp
    have hrate : (0 : ℚ) ≤ body.rate.getD 0 := by
      cases hrb : body.rate with
      | none => simp
      | some x => simpa using hr x (by rw [hrb]; rfl)
    have hqq : (0 : ℚ) ≤ (body.quantity : ℚ) := by
      exact_mod_cast le_trans (by norm_num) hq
    have hraw : (0 : ℚ) ≤ (body.quantity : ℚ) * body.rate.getD 0 * (2 / 1000) := by
      have := mul_nonneg hqq hrate
      positivity
    have hmax : (0 : ℚ) ≤ MAX_PREMIUM := by norm_num [MAX_PREMIUM]
    have hp' : p = if (body.quantity : ℚ) * body.rate.getD 0 * (2 / 1000) > MAX_PREMIUM
        then MAX_PREMIUM
        else (body.quantity : ℚ) * body.rate.getD 0 * (2 / 1000) := by
      simpa [createdRow] using hp.symm
    rw [hp', clamp_eq_min]
    exact le_min hraw hmax

/-- A concrete valid submission body: 45 units at rate 98.50, consent "TRUE". -/
def sampleBody : CreateBody :=
  { userId := some "+91 98765-43210"
    itemName := "Tender Coconut"
    quantity := 45
    rate := some ((197 : ℚ) / 2)
    vehicleNo := "KA01AB1234"
    consent := .str "TRUE" }

/-- Witness for C2: at the sample body the stored premium is
min(45 × 98.5 × 0.002, cap) = 8.865 and is nonnegative. -/
theorem premium_at_creation_witness :
    1 ≤ sampleBody.quantity ∧
    ∃ row : InsuranceRequest,
      (createInsuranceRequest [] sampleBody "req-1" true).2 = [] ++ [row] ∧
      row.premiumAmount =
        some (min ((sampleBody.quantity : ℚ) * sampleBody.rate.getD 0 * (2 / 1000))
          MAX_PREMIUM) ∧
      ∀ p ∈ row.premiumAmount, 0 ≤ p := by
  refine ⟨by decide, ?_⟩
  exact premium_at_creation [] sampleBody "req-1" "+91 98765-43210"
    (by decide) rfl (by decide) (by decide) (by decide) rfl (by decide)
    (by intro x hx; simp [sampleBody] at hx; rw [← hx]; norm_num)

/-! ## C3 and C5: the reject path -/

/-- A concrete request awaiting verification. -/
def pendingRow : InsuranceRequest :=
  { id := "req-pend", userId := "919876543210", itemName := "Tender Coconut",
    quantity := 45, rate := some ((197 : ℚ) / 2), vehicleNo := "KA01AB1234",
    status := "PENDING_VERIFICATION", premiumAmount := some ((8865 : ℚ) / 1000) }

/-- C3 (code-bug exhibit): on the approve path dependent-service failures are
swallowed (any pdf/notify outcome still yields the 200 response and the
committed APPROVED row), but on the reject path the notification is awaited
without a local try/catch: when it throws, the handler falls into the outer
catch and answers 500 — after the REJECTED transition was already committed.
The claim that the client still receives a success response therefore fails
for the reject operation. -/
theorem reject_notify_failure_returns_500 :
    (∀ pdfResult notifyOk,
      (approveRequest [pendingRow] "req-pend" 3 "http://localhost:5000"
        pdfResult notifyOk).1.httpStatus = 200) ∧
    rejectRequest [pendingRow] "req-pend" (some "incomplete documentation") 3 false =
      (.serverError,
        [{ pendingRow with
            status := "REJECTED"
            adminAction := some "REJECTED"
            adminTimestamp := some 3
            rejectionReason := some "incomplete documentation" }]) ∧
    RejectResp.serverError.httpStatus = 500 := by
  refine ⟨?_, by rfl, rfl⟩
  intro pdfResult notifyOk
  cases pdfResult <;> simp [approveRequest, pendingRow, findUniqueById,
    ApproveResp.httpStatus, updateById]

/-- C5 (code-bug exhibit): the reject route attaches `validateRejection`
(minimum reason length 10), but the handler never reads `validationResult`;
only its own falsy check runs.  A 9-character reason therefore reaches the
store and commits the REJECTED transition with the 200 response, instead of
failing validation before any store access.  (An absent reason is still
stopped by the falsy check.) -/
theorem short_reason_not_blocked :
    validateRejectionOk (some "too short") = false ∧
    ("too short".length < 10) = True ∧
    rejectRequest [pendingRow] "req-pend" (some "too short") 3 true =
      (.ok "req-pend" "REJECTED" (some "too short"),
        [{ pendingRow with
            status := "REJECTED"
            adminAction := some "REJECTED"
            adminTimestamp := some 3
            rejectionReason := some "too short" }]) ∧
    rejectRequest [pendingRow] "req-pend" none 3 true = (.reasonRequired, [pendingRow]) := by
  refine ⟨by decide, by decide, by rfl, by rfl⟩

/-- Characterization of the duplicate path of `createInsuranceRequest`: when
a row with the normalized identifier already exists, the handler answers the
409 duplicate response with the existing row's identifier and status, and the
store is unchanged. -/
lemma createInsuranceRequest_duplicate (db : Db) (body : CreateBody)
    (newId uid : String) (existing : InsuranceRequest)
    (hval : consentValidatorOk body.consent = true)
    (huid : body.userId = some uid) (hne : uid ≠ "")
    (hdig : digitsOnly uid ≠ "")
    (hcons : normalizeBoolean body.consent = true)
    (hdup : findUniqueByUserId db (digitsOnly uid) = some existing) :
    createInsuranceRequest db body newId true =
      (.duplicate existing.id existing.status, db) := by
  simp [createInsuranceRequest, huid, hval, hcons, hne, hdig, hdup]

/-! ## C4: duplicate submissions -/

/-- C4: after a first successful submission, a second submission whose
identifier normalizes to the same digits creates no row (the store is
unchanged), answers with the 409 duplicate response carrying the first
request's identifier and current status, and exactly one row with that
normalized identifier exists. -/
theorem duplicate_submission_conflict (db : Db) (body1 body2 : CreateBody)
    (newId1 newId2 u1 u2 : String)
    (h1val : consentValidatorOk body1.consent = true)
    (h1uid : body1.userId = some u1) (h1ne : u1 ≠ "")
    (h1dig : digitsOnly u1 ≠ "")
    (h1cons : normalizeBoolean body1.consent = true)
    (hnodup : findUniqueByUserId db (digitsOnly u1) = none)
    (h2val : consentValidatorOk body2.consent = true)
    (h2uid : body2.userId = some u2) (h2ne : u2 ≠ "")
    (h2cons : normalizeBoolean body2.consent = true)
    (hsame : digitsOnly u2 = digitsOnly u1) :
    createInsuranceRequest (createInsuranceRequest db body1 newId1 true).2 body2 newId2 true =
      (.duplicate newId1 "PENDING_VERIFICATION",
        (createInsuranceRequest db body1 newId1 true).2) ∧
    (CreateResp.duplicate newId1 "PENDING_VERIFICATION").httpStatus = 409 ∧
    ((createInsuranceRequest db body1 newId1 true).2.filter
       (fun r => r.userId == digitsOnly u1)).length = 1 := by
  have h1 := createInsuranceRequest_success db body1 newId1 u1 h1val h1uid h1ne h1dig h1cons hnodup
  have hrow : (createdRow body1 newId1 (digitsOnly u1) true).userId = digitsOnly u1 := rfl
  have hfind1 : findUniqueByUserId (createInsuranceRequest db body1 newId1 true).2
      (digitsOnly u1) = some (createdRow body1 newId1 (digitsOnly u1) true) := by
    rw [h1]
    unfold findUniqueByUserId at hnodup ⊢
    rw [find?_append_of_none _ _ hnodup]
    exact @List.find?_cons_of_pos _ (fun r => r.userId == digitsOnly u1)
      (createdRow body1 newId1 (digitsOnly u1) true) []
      (by show ((createdRow body1 newId1 (digitsOnly u1) true).userId == digitsOnly u1) = true
          rw [hrow]; exact beq_self_eq_true _)
  refine ⟨?_, rfl, ?_⟩
  · have h2dig : digitsOnly u2 ≠ "" := by rw [hsame]; exact h1dig
    have hfind2 : findUniqueByUserId (createInsuranceRequest db body1 newId1 true).2
        (digitsOnly u2) = some (createdRow body1 newId1 (digitsOnly u1) true) := by
      rw [hsame]; exact hfind1
    exact createInsuranceRequest_duplicate _ body2 newId2 u2 _
      h2val h2uid h2ne h2dig h2cons hfind2
  · rw [h1]
    have hall : ∀ x ∈ db, ¬ ((fun r => r.userId == digitsOnly u1) x = true) :=
      List.find?_eq_none.mp hnodup
    rw [List.filter_append, List.filter_eq_nil_iff.mpr hall]
    simp [hrow]

/-- A second submission of the same phone number, differently formatted. -/
def sampleBody2 : CreateBody :=
  { sampleBody with userId := some "919876543210", consent := .str "yes" }

/-- First sample submission body keyed to the same digits as `sampleBody2`. -/
def sampleBody1 : CreateBody :=
  { sampleBody with userId := some "+91 98765 43210" }

/-- Witness for C4 at two concrete submissions of the same phone number. -/
theorem duplicate_submission_conflict_witness :
    digitsOnly "919876543210" = digitsOnly "+91 98765 43210" ∧
    createInsuranceRequest (createInsuranceRequest [] sampleBody1 "req-1" true).2
        sampleBody2 "req-2" true =
      (.duplicate "req-1" "PENDING_VERIFICATION",
        (createInsuranceRequest [] sampleBody1 "req-1" true).2) ∧
    ((createInsuranceRequest [] sampleBody1 "req-1" true).2.filter
       (fun r => r.userId == digitsOnly "+91 98765 43210")).length = 1 := by
  have h := duplicate_submission_conflict [] sampleBody1 sampleBody2 "req-1" "req-2"
    "+91 98765 43210" "919876543210"
    (by decide) rfl (by decide) (by decide) (by decide) rfl
    (by decide) rfl (by decide) (by decide) (by decide)
  exact ⟨by decide, h.1, h.2.2⟩

/-! ## C6: effects of approval -/

/-- C6: approving a request in PENDING_VERIFICATION answers 200 and stores it
with status APPROVED, payment status PENDING, the time-derived invoice number
`INV<now>`, the placeholder Razorpay payment link, and a finalized premium
equal to the stored provisional premium when one is present (otherwise
quantity × rate × 0.002, rate defaulting to 0), clamped to at most
99999999.99. -/
theorem approve_pending_effects (db : Db) (id : String) (now : Nat)
    (serverUrl : String) (pdfResult : Option String) (notifyOk : Bool)
    (r : InsuranceRequest)
    (hfind : findUniqueById db id = some r)
    (hpend : r.status = "PENDING_VERIFICATION") :
    (approveRequest db id now serverUrl pdfResult notifyOk).1.httpStatus = 200 ∧
    ∃ upd : InsuranceRequest,
      findUniqueById (approveRequest db id now serverUrl pdfResult notifyOk).2 id =
        some upd ∧
      upd.status = "APPROVED" ∧
      upd.paymentStatus = some "PENDING" ∧
      upd.invoiceNumber = some ("INV" ++ toString now) ∧
      upd.paymentLink = some ("https://razorpay.me/temp-link-" ++ ("INV" ++ toString now)) ∧
      upd.premiumAmount =
        some (min (match r.premiumAmount with
          | some p => p
          | none => (r.quantity : ℚ) * r.rate.getD 0 * (2 / 1000)) MAX_PREMIUM) := by
  have hid : ∀ x, (applyApprovalData now ("INV" ++ toString now)
      (if (match r.premiumAmount with
            | some p => p
            | none => (r.quantity : ℚ) * r.rate.getD 0 * (2 / 1000)) > MAX_PREMIUM
          then MAX_PREMIUM
          else (match r.premiumAmount with
            | some p => p
            | none => (r.quantity : ℚ) * r.rate.getD 0 * (2 / 1000)))
      ("https://razorpay.me/temp-link-" ++ ("INV" ++ toString now)) x).id = x.id :=
    fun _ => rfl
  unfold approveRequest
  rw [hfind]
  dsimp only
  rw [if_neg (by rw [hpend]; exact fun h => h rfl)]
  cases pdfResult with
  | none =>
      refine ⟨rfl, ?_⟩
      refine ⟨_, findUniqueById_updateById db id _ hid hfind, ?_⟩
      refine ⟨rfl, rfl, rfl, rfl, ?_⟩
      show some (if _ > MAX_PREMIUM then MAX_PREMIUM else _) = _
      rw [clamp_eq_min]
  | some pdfFilename =>
      refine ⟨rfl, ?_⟩
      have h1 := findUniqueById_updateById db id _ hid hfind
      have h2 := findUniqueById_updateById (updateById db id _) id
        (fun x => { x with invoicePdfUrl := some (serverUrl ++ "/invoices/" ++ pdfFilename) })
        (fun _ => rfl) h1
      refine ⟨_, h2, ?_⟩
      refine ⟨rfl, rfl, rfl, rfl, ?_⟩
      show some (if _ > MAX_PREMIUM then MAX_PREMIUM else _) = _
      rw [clamp_eq_min]

/-- Witness for C6 at a concrete pending request (with a stored provisional
premium, a failed PDF render, and a successful notification). -/
theorem approve_pending_effects_witness :
    findUniqueById [pendingRow] "req-pend" = some pendingRow ∧
    (approveRequest [pendingRow] "req-pend" 11 "http://localhost:5000" none true).1.httpStatus
      = 200 ∧
    ∃ upd : InsuranceRequest,
      findUniqueById
        (approveRequest [pendingRow] "req-pend" 11 "http://localhost:5000" none true).2
        "req-pend" = some upd ∧
      upd.status = "APPROVED" ∧
      upd.paymentStatus = some "PENDING" ∧
      upd.invoiceNumber = some ("INV" ++ toString 11) ∧
      upd.paymentLink = some ("https://razorpay.me/temp-link-" ++ ("INV" ++ toString 11)) ∧
      upd.premiumAmount =
        some (min (match pendingRow.premiumAmount with
          | some p => p
          | none => (pendingRow.quantity : ℚ) * pendingRow.rate.getD 0 * (2 / 1000))
          MAX_PREMIUM) := by
  have h := approve_pending_effects [pendingRow] "req-pend" 11 "http://localhost:5000"
    none true pendingRow (by rfl) rfl
  exact ⟨by rfl, h.1, h.2⟩

/-! ## C7: consent normalization policy -/

/-- C7: consent values "TRUE", "yes", "1" (case-insensitive and
whitespace-trimmed) and boolean true normalize to granted; "no", "0",
boolean false and an omitted consent normalize to withheld, and any body
whose consent normalizes to withheld is refused with a 400 response while
the store is left untouched (no record is persisted). -/
theorem consent_policy :
    (normalizeBoolean (.str "TRUE") = true ∧
     normalizeBoolean (.str " yes ") = true ∧
     normalizeBoolean (.str "1") = true ∧
     normalizeBoolean (.bool true) = true) ∧
    (normalizeBoolean (.str "no") = false ∧
     normalizeBoolean (.str "0") = false ∧
     normalizeBoolean (.bool false) = false ∧
     normalizeBoolean .omitted = false) ∧
    (∀ (db : Db) (body : CreateBody) (newId : String) (ok : Bool),
      normalizeBoolean body.consent = false →
      (createInsuranceRequest db body newId ok).1.httpStatus = 400 ∧
      (createInsuranceRequest db body newId ok).2 = db) := by
  refine ⟨by decide, by decide, ?_⟩
  intro db body newId ok hcons
  unfold createInsuranceRequest
  by_cases h1 : (ok && consentValidatorOk body.consent) = true
  · rw [if_neg (by simp [h1])]
    cases body.userId with
    | none => exact ⟨rfl, rfl⟩
    | some uid =>
      dsimp only
      by_cases h2 : uid = ""
      · rw [if_pos h2]; exact ⟨rfl, rfl⟩
      · rw [if_neg h2]
        by_cases h3 : digitsOnly uid = ""
        · rw [if_pos h3]; exact ⟨rfl, rfl⟩
        · rw [if_neg h3]
          rw [hcons]
          rw [if_pos (by simp)]
          exact ⟨rfl, rfl⟩
  · rw [if_pos (by simpa using h1)]
    exact ⟨rfl, rfl⟩

/-- Witness for C7 at a concrete body with consent "no". -/
theorem consent_policy_witness :
    normalizeBoolean (.str "no") = false ∧
    (createInsuranceRequest []
      { sampleBody with consent := .str "no" } "req-7" true).1.httpStatus = 400 ∧
    (createInsuranceRequest []
      { sampleBody with consent := .str "no" } "req-7" true).2 = [] := by
  have h := consent_policy.2.2 [] { sampleBody with consent := .str "no" }
    "req-7" true (by decide)
  exact ⟨by decide, h.1, h.2⟩

/-! ## C8: renderer falls back to the textual placeholder -/

/-- C8: when no remote image could be downloaded and none of the local
fallback paths exists, the render still completes, producing the document
with the textual placeholder in the weightment-slip area. -/
theorem render_placeholder_on_missing_image (request : InsuranceRequest)
    (inv : String) (prem : ℚ) (net : Option String) (env : RenderEnv)
    (hdl : downloadedPath request net = none)
    (hfs : ∀ p ∈ possibleImagePaths request, env.fsExists p = false) :
    ∃ d : InvoiceDoc,
      (generateInvoicePdf request inv prem net env .finish).1 = .ok (inv ++ ".pdf", d) ∧
      d.slip = .placeholder "CUSTOMER WILL UPDATE TOMORROW" := by
  have hfall : localFallbackSlip request env = none := by
    unfold localFallbackSlip
    apply List.find?_eq_none.mpr
    intro p hp
    simp [hfs p hp]
  refine ⟨buildInvoiceDoc request inv prem (downloadedPath request net) env, rfl, ?_⟩
  show weightmentSlip request (downloadedPath request net) env = _
  rw [hdl]
  simp [weightmentSlip, hfall]

/-- A filesystem with no image files at all. -/
def noFsEnv : RenderEnv := ⟨fun _ => false, fun _ => false⟩

/-- Witness for C8 at a concrete request with no image URL on an empty
filesystem. -/
theorem render_placeholder_on_missing_image_witness :
    downloadedPath approvedRow none = none ∧
    ∃ d : InvoiceDoc,
      (generateInvoicePdf approvedRow "INV1700000000000" 9 none noFsEnv .finish).1 =
        .ok ("INV1700000000000" ++ ".pdf", d) ∧
      d.slip = .placeholder "CUSTOMER WILL UPDATE TOMORROW" := by
  refine ⟨by decide, ?_⟩
  exact render_placeholder_on_missing_image approvedRow "INV1700000000000" 9 none noFsEnv
    (by decide) (by intro p hp; rfl)

/-! ## C9: the transient image never leaks -/

/-- C9: whenever a remote image was downloaded to a transient path, every
terminal outcome of the render — stream finish, stream error, document
error, synchronous throw — performs the cleanup of that transient file, so
no execution of the renderer leaves it behind. -/
theorem temp_image_always_cleaned (request : InsuranceRequest) (inv : String)
    (prem : ℚ) (net : Option String) (env : RenderEnv) (outcome : RenderOutcome)
    (p : String)
    (hdl : downloadedPath request net = some p) :
    (generateInvoicePdf request inv prem net env outcome).2 = [.cleanupTemp p] := by
  cases outcome <;> (unfold generateInvoicePdf; rw [hdl])

/-- A pending request holding a remote image URL. -/
def urlRow : InsuranceRequest :=
  { id := "req-url", userId := "917700112233", itemName := "Copra",
    quantity := 10, status := "PENDING_VERIFICATION",
    kantaParchiImage := some "http://img.example/kanta.jpg" }

/-- Witness for C9 at a concrete request whose image downloads to a temp
path, on the failure outcome of the stream. -/
theorem temp_image_always_cleaned_witness :
    downloadedPath urlRow (some "temp/kanta_1_ab.jpg") = some "temp/kanta_1_ab.jpg" ∧
    (generateInvoicePdf urlRow "INV2" 0 (some "temp/kanta_1_ab.jpg") noFsEnv
      .streamError).2 = [.cleanupTemp "temp/kanta_1_ab.jpg"] := by
  refine ⟨by decide, ?_⟩
  exact temp_image_always_cleaned urlRow "INV2" 0 (some "temp/kanta_1_ab.jpg") noFsEnv
    .streamError "temp/kanta_1_ab.jpg" (by decide)

/-! ## C10: creation and status lookup use the same normalization -/

/-- C10: a stored request created from submitter identifier `uid` is found by
the status lookup queried with any string whose digit characters equal those
of `uid`: both ends apply the same digits-only normalization, so lookup after
submission round-trips regardless of formatting characters. -/
theorem status_lookup_roundtrip (db : Db) (body : CreateBody)
    (newId uid q : String)
    (hval : consentValidatorOk body.consent = true)
    (huid : body.userId = some uid) (hne : uid ≠ "")
    (hdig : digitsOnly uid ≠ "")
    (hcons : normalizeBoolean body.consent = true)
    (hnodup : findUniqueByUserId db (digitsOnly uid) = none)
    (hq : digitsOnly q = digitsOnly uid) :
    ∃ row : InsuranceRequest,
      (createInsuranceRequest db body newId true).2 = db ++ [row] ∧
      row.userId = digitsOnly uid ∧
      getRequestByUserId (createInsuranceRequest db body newId true).2 q =
        .ok (selectStatusView row) := by
  have h1 := createInsuranceRequest_success db body newId uid hval huid hne hdig hcons hnodup
  refine ⟨createdRow body newId (digitsOnly uid) true, by rw [h1], rfl, ?_⟩
  rw [h1]
  unfold getRequestByUserId
  rw [hq]
  have hfind : findUniqueByUserId (db ++ [createdRow body newId (digitsOnly uid) true])
      (digitsOnly uid) = some (createdRow body newId (digitsOnly uid) true) := by
    unfold findUniqueByUserId at hnodup ⊢
    rw [find?_append_of_none _ _ hnodup]
    exact @List.find?_cons_of_pos _ (fun r => r.userId == digitsOnly uid)
      (createdRow body newId (digitsOnly uid) true) [] (beq_self_eq_true _)
  dsimp only
  rw [hfind]

/-- Witness for C10: create with "+91 98765 43210" and look the status up
with "+919876543210". -/
theorem status_lookup_roundtrip_witness :
    digitsOnly "+919876543210" = digitsOnly "+91 98765 43210" ∧
    ∃ row : InsuranceRequest,
      (createInsuranceRequest [] sampleBody1 "req-10" true).2 = [] ++ [row] ∧
      row.userId = digitsOnly "+91 98765 43210" ∧
      getRequestByUserId (createInsuranceRequest [] sampleBody1 "req-10" true).2
        "+919876543210" = .ok (selectStatusView row) := by
  refine ⟨by decide, ?_⟩
  exact status_lookup_roundtrip [] sampleBody1 "req-10" "+91 98765 43210" "+919876543210"
    (by decide) rfl (by decide) (by decide) (by decide) rfl (by decide)

end MandiPlus
